import Mathlib

/-!
Verification of the Envoy OpenCensus tracer driver
(source/extensions/tracers/opencensus/opencensus_tracer_impl.cc).

The file shallowly embeds the tracer code: the OpenCensus SDK span, the
propagation header encoders and the sampler semantics are modelled from the
specification (the SDK is an external dependency, not part of the sources),
while the Envoy-side wrapper span, the driver, and applyTraceConfig are
translated directly from the C++ source. Header containers are association
lists, addCopy appends; randomness of the probability draw and of id
generation is made explicit as extra parameters.
-/

namespace OCTrace

/-- Attribute values attached to annotations and attributes
(the SDK accepts strings and booleans here). -/
inductive AttrValue
  | strV (s : String)
  | boolV (b : Bool)
deriving DecidableEq

/-- Modelled from the spec: the trace context triple
(trace-id, span-id, trace-flags sampled bit), immutable, propagated by value. -/
structure SpanContext where
  traceId : Nat
  spanId : Nat
  sampled : Bool
deriving DecidableEq

/-- The two explicit samplers the wrapper passes in StartSpanOptions:
AlwaysSampler and NeverSampler. -/
inductive OptSampler
  | always
  | never
deriving DecidableEq

/-- Modelled from the spec: an OpenCensus SDK span record. A span holds a
context, a back-reference to the parent span id only (no forward references
to children), a recording flag (the sampling decision), attributes,
annotations, the ended flag, and a count of export dispatches. -/
structure OcSpan where
  name : String
  context : SpanContext
  parentSpanId : Option Nat
  recording : Bool
  attributes : List (String × AttrValue)
  annotations : List (String × List (String × AttrValue))
  ended : Bool
  exportCount : Nat
deriving DecidableEq

/-- Modelled from the spec: SDK span creation. The sampling decision is made
once at creation: an explicit always/never sampler in the options is honored
unconditionally; with no explicit sampler the global probability sampler is
consulted, whose random outcome is the `draw` parameter (a span with a
sampled parent stays sampled). A child inherits the trace id of the parent
and records only a back-reference to the parent span id; fresh trace and
span ids come in as `tid`, `sid`. -/
def ocStartSpan (name : String) (parent : Option OcSpan) (sampler : Option OptSampler)
    (tid sid : Nat) (draw : Bool) : OcSpan :=
  let recording : Bool :=
    match sampler with
    | some OptSampler.always => true
    | some OptSampler.never => false
    | none =>
      match parent with
      | some p => p.context.sampled || draw
      | none => draw
  { name := name
    context :=
      { traceId := match parent with | some p => p.context.traceId | none => tid
        spanId := sid
        sampled := recording }
    parentSpanId := parent.map (fun p => p.context.spanId)
    recording := recording
    attributes := []
    annotations := []
    ended := false
    exportCount := 0 }

/-- Modelled from the spec: AddAttribute attaches an attribute to the span;
mutation after the span has ended is a no-op, since a finished span is
immutable. -/
def ocAddAttribute (s : OcSpan) (k : String) (v : AttrValue) : OcSpan :=
  if s.ended then s else { s with attributes := s.attributes ++ [(k, v)] }

/-- Modelled from the spec: AddAnnotation records a timestamped annotation
(a label with a key/value set) on the span; mutation after the span has
ended is a no-op, since a finished span is immutable. -/
def ocAddAnnot (s : OcSpan) (label : String) (attrs : List (String × AttrValue)) : OcSpan :=
  if s.ended then s else { s with annotations := s.annotations ++ [(label, attrs)] }

/-- Modelled from the spec: End marks the span ended and dispatches it once to
the registered exporter sinks; a second End is a no-op, not a crash. -/
def ocEnd (s : OcSpan) : OcSpan :=
  if s.ended then s else { s with ended := true, exportCount := s.exportCount + 1 }

/-- One hexadecimal digit character. -/
def hexChar (n : Nat) : Char :=
  if n < 10 then Char.ofNat (48 + n) else Char.ofNat (87 + n)

/-- Fixed-width big-endian hexadecimal digits of a natural number. -/
def hexDigits : Nat → Nat → List Char
  | 0, _ => []
  | w + 1, n => hexDigits w (n / 16) ++ [hexChar (n % 16)]

/-- Fixed-width hexadecimal rendering as a string. -/
def hexPad (w n : Nat) : String :=
  String.mk (hexDigits w n)

/-- Fixed-width big-endian byte decomposition of a natural number. -/
def bytesBE : Nat → Nat → List Nat
  | 0, _ => []
  | w + 1, n => bytesBE w (n / 256) ++ [n % 256]

/-- Modelled from the spec: the x-cloud-trace-context header value, a
backend-specific textual encoding of trace-id/span-id/sampled-bit. -/
def toCloudTraceContextHeader (ctx : SpanContext) : String :=
  hexPad 32 ctx.traceId ++ "/" ++ toString ctx.spanId ++ ";o=" ++
    (if ctx.sampled then "1" else "0")

/-- Modelled from the spec: the traceparent header value, the versioned hex
encoding version-traceid-spanid-flags. -/
def toTraceParentHeader (ctx : SpanContext) : String :=
  "00-" ++ hexPad 32 ctx.traceId ++ "-" ++ hexPad 16 ctx.spanId ++ "-" ++
    (if ctx.sampled then "01" else "00")

/-- Modelled from the spec: the grpc-trace-bin header value, a binary
encoding of the same triple (version byte, trace-id field, span-id field,
options field), rendered here as a string of byte-valued characters. -/
def toGrpcTraceBinHeader (ctx : SpanContext) : String :=
  String.mk
    (((0 :: 0 :: bytesBE 16 ctx.traceId) ++ (1 :: bytesBE 8 ctx.spanId) ++
      [2, if ctx.sampled then 1 else 0]).map Char.ofNat)

/-- The sampler oneof of the opencensus.proto.trace.v1.TraceConfig message,
with a case for an unknown kind (the switch default). -/
inductive SamplerCase
  | kProbabilitySampler (samplingprobability : ℚ)
  | kConstantSampler (decision : Bool)
  | kRateLimitingSampler (qps : ℚ)
  | samplerNotSet
  | unknownSampler
deriving DecidableEq

/-- The TraceConfig proto fields used by applyTraceConfig. -/
structure TraceConfigProto where
  sampler : SamplerCase
  max_number_of_attributes : Int
  max_number_of_annotations : Int
  max_number_of_message_events : Int
  max_number_of_links : Int
deriving DecidableEq

/-- The OpenCensusConfig proto fields used by the driver and the span. -/
structure OpenCensusConfig where
  trace_config : Option TraceConfigProto
  propagate_cloud_trace_context : Bool
  propagate_trace_context : Bool
  propagate_grpc_trace_bin : Bool
deriving DecidableEq

/-- The trace parameters installed by SetCurrentTraceParams: four uint32
limits and the probability of the installed ProbabilitySampler. -/
structure TraceParams where
  max_attributes : Nat
  max_annotations : Nat
  max_message_events : Nat
  max_links : Nat
  probability : ℚ
deriving DecidableEq

/-- The C++ uint32_t conversion applied to the proto limit fields. -/
def u32 (x : Int) : Nat :=
  (x % (2 ^ 32 : Int)).toNat

/-- kDefaultSamplingProbability from Driver::applyTraceConfig. -/
def kDefaultSamplingProbability : ℚ := 1 / 10000

/-- Driver::applyTraceConfig: selects the probability from the sampler case
(default on rate-limiting, not-set and unknown kinds, logging the two error
cases), then installs the trace parameters with a ProbabilitySampler of that
probability. Returns the installed parameters and the emitted log lines. -/
def applyTraceConfig (config : TraceConfigProto) : TraceParams × List String :=
  let pl : ℚ × List String :=
    match config.sampler with
    | SamplerCase.kProbabilitySampler p => (p, [])
    | SamplerCase.kConstantSampler d => (if d then (1 : ℚ) else 0, [])
    | SamplerCase.kRateLimitingSampler _ =>
      (kDefaultSamplingProbability, ["RateLimitingSampler is not supported."])
    | SamplerCase.samplerNotSet => (kDefaultSamplingProbability, [])
    | SamplerCase.unknownSampler =>
      (kDefaultSamplingProbability, ["Unknown sampler type in TraceConfig."])
  ({ max_attributes := u32 config.max_number_of_attributes
     max_annotations := u32 config.max_number_of_annotations
     max_message_events := u32 config.max_number_of_message_events
     max_links := u32 config.max_number_of_links
     probability := pl.1 }, pl.2)

/-- The operation role carried in the host Tracing::Config. -/
inductive OperationName
  | Ingress
  | Egress
deriving DecidableEq

/-- The host Tracing::Config as far as the tracer reads it. -/
structure TracingConfig where
  operationName : OperationName
deriving DecidableEq

/-- The host sampling directive passed to startSpan. -/
structure TracingDecision where
  traced : Bool
deriving DecidableEq

/-- System time, abstracted. -/
abbrev SystemTime := Nat

/-- The host header container: an ordered list of name/value pairs. -/
abbrev HeaderMap := List (String × String)

/-- HeaderMap::addCopy appends a new header entry. -/
def addCopy (h : HeaderMap) (name value : String) : HeaderMap :=
  h ++ [(name, value)]

/-- The anonymous-namespace StartSpan helper: picks the always sampler when
traced, the never sampler otherwise, and starts a span with a null parent. -/
def StartSpan (name : String) (traced : Bool) (tid sid : Nat) (draw : Bool) : OcSpan :=
  let sampler : Option OptSampler :=
    if traced then some OptSampler.always else some OptSampler.never
  ocStartSpan name none sampler tid sid draw

/-- The Envoy-side span wrapper: the SDK span plus the config pointer. -/
structure EnvoySpan where
  span_ : OcSpan
  oc_config_ : OpenCensusConfig
deriving DecidableEq

/-- The Span constructor used by Driver::startSpan: ignores the request
headers and the start time, starts the SDK span via StartSpan, and adds the
OperationName attribute from the role in the tracing config. -/
def EnvoySpan.create (config : TracingConfig) (oc_config : OpenCensusConfig)
    (_request_headers : HeaderMap) (operation_name : String) (_start_time : SystemTime)
    (tracing_decision : TracingDecision) (tid sid : Nat) (draw : Bool) : EnvoySpan :=
  { span_ :=
      ocAddAttribute (StartSpan operation_name tracing_decision.traced tid sid draw)
        "OperationName"
        (AttrValue.strV
          (match config.operationName with
           | OperationName.Ingress => "Ingress"
           | OperationName.Egress => "Egress"))
    oc_config_ := oc_config }

/-- Span::setOperation: records a setOperation annotation carrying the name. -/
def EnvoySpan.setOperation (s : EnvoySpan) (operation : String) : EnvoySpan :=
  { s with span_ :=
      ocAddAnnot s.span_ "setOperation" [("operation", AttrValue.strV operation)] }

/-- Span::setTag: attaches an attribute. -/
def EnvoySpan.setTag (s : EnvoySpan) (name value : String) : EnvoySpan :=
  { s with span_ := ocAddAttribute s.span_ name (AttrValue.strV value) }

/-- Span::finishSpan: delegates to the SDK End. -/
def EnvoySpan.finishSpan (s : EnvoySpan) : EnvoySpan :=
  { s with span_ := ocEnd s.span_ }

/-- Span::injectContext: for each enabled propagation format, appends that
format header (encoding the current span context) to the container, in the
order cloud-trace-context, traceparent, grpc-trace-bin. Returns the span
(unchanged: the method only reads span state) and the new container. -/
def EnvoySpan.injectContext (s : EnvoySpan) (request_headers : HeaderMap) :
    EnvoySpan × HeaderMap :=
  let h1 :=
    if s.oc_config_.propagate_cloud_trace_context then
      addCopy request_headers "x-cloud-trace-context"
        (toCloudTraceContextHeader s.span_.context)
    else request_headers
  let h2 :=
    if s.oc_config_.propagate_trace_context then
      addCopy h1 "traceparent" (toTraceParentHeader s.span_.context)
    else h1
  let h3 :=
    if s.oc_config_.propagate_grpc_trace_bin then
      addCopy h2 "grpc-trace-bin" (toGrpcTraceBinHeader s.span_.context)
    else h2
  (s, h3)

/-- Span::spawnChild: records a spawnChild annotation on this span and starts
a new SDK span with this span as parent (default options, so the sampling of
the child follows the parent context and the global sampler draw). Returns
the mutated parent and the new child wrapper. -/
def EnvoySpan.spawnChild (s : EnvoySpan) (name : String) (_start_time : SystemTime)
    (sid : Nat) (draw : Bool) : EnvoySpan × EnvoySpan :=
  let parent : EnvoySpan := { s with span_ := ocAddAnnot s.span_ "spawnChild" [] }
  let child := ocStartSpan name (some parent.span_) none 0 sid draw
  (parent, { span_ := child, oc_config_ := s.oc_config_ })

/-- Span::setSampled: records a setSampled annotation carrying the flag. -/
def EnvoySpan.setSampled (s : EnvoySpan) (sampled : Bool) : EnvoySpan :=
  { s with span_ := ocAddAnnot s.span_ "setSampled" [("sampled", AttrValue.boolV sampled)] }

/-- The tracer driver: holds the configuration. -/
structure Driver where
  oc_config_ : OpenCensusConfig
deriving DecidableEq

/-- Driver construction: applies the trace config when present (returning
the installed parameters and log lines), and keeps the configuration. -/
def Driver.construct (oc_config : OpenCensusConfig) :
    Driver × Option (TraceParams × List String) :=
  ({ oc_config_ := oc_config }, oc_config.trace_config.map applyTraceConfig)

/-- Driver::startSpan: builds a new Envoy span from the configuration and the
call arguments. -/
def Driver.startSpan (d : Driver) (config : TracingConfig) (request_headers : HeaderMap)
    (operation_name : String) (start_time : SystemTime)
    (tracing_decision : TracingDecision) (tid sid : Nat) (draw : Bool) : EnvoySpan :=
  EnvoySpan.create config d.oc_config_ request_headers operation_name start_time
    tracing_decision tid sid draw

/-- The headers injectContext appends: one entry per enabled format. -/
def injectedHeaders (cfg : OpenCensusConfig) (ctx : SpanContext) : HeaderMap :=
  (if cfg.propagate_cloud_trace_context then
    [("x-cloud-trace-context", toCloudTraceContextHeader ctx)] else []) ++
  (if cfg.propagate_trace_context then
    [("traceparent", toTraceParentHeader ctx)] else []) ++
  (if cfg.propagate_grpc_trace_bin then
    [("grpc-trace-bin", toGrpcTraceBinHeader ctx)] else [])

/-- A concrete configuration enabling only the cloud-trace-context format. -/
def cfgCloudOnly : OpenCensusConfig :=
  { trace_config := none
    propagate_cloud_trace_context := true
    propagate_trace_context := false
    propagate_grpc_trace_bin := false }

/-- A concrete sample span used by witnesses and counterexamples. -/
def sampleSpan : EnvoySpan :=
  { span_ := ocStartSpan "op" none (some OptSampler.always) 1 2 false
    oc_config_ := cfgCloudOnly }

/-- A concrete finished span used by counterexamples. -/
def endedSpan : EnvoySpan :=
  EnvoySpan.finishSpan sampleSpan

/-- The fixed-width hex digit list has the requested width. -/
theorem hexDigits_length (w : Nat) : ∀ n, (hexDigits w n).length = w := by
  induction w with
  | zero => intro n; rfl
  | succ w ih => intro n; simp [hexDigits, ih]

/-- The fixed-width byte list has the requested width. -/
theorem bytesBE_length (w : Nat) : ∀ n, (bytesBE w n).length = w := by
  induction w with
  | zero => intro n; rfl
  | succ w ih => intro n; simp [bytesBE, ih]

/-- The fixed-width hex string has the requested length. -/
theorem hexPad_length (w n : Nat) : (hexPad w n).length = w := by
  simp [hexPad, String.length_mk, hexDigits_length]

/-- The cloud-trace-context header value is never the empty string. -/
theorem toCloudTraceContextHeader_ne (ctx : SpanContext) :
    toCloudTraceContextHeader ctx ≠ "" := by
  intro hc
  have h1 := congrArg String.length hc
  simp only [toCloudTraceContextHeader, String.length_append, hexPad_length,
    String.length_empty] at h1
  omega

/-- The traceparent header value is never the empty string. -/
theorem toTraceParentHeader_ne (ctx : SpanContext) :
    toTraceParentHeader ctx ≠ "" := by
  intro hc
  have h1 := congrArg String.length hc
  simp only [toTraceParentHeader, String.length_append, hexPad_length,
    String.length_empty] at h1
  omega

/-- The grpc-trace-bin header value is never the empty string. -/
theorem toGrpcTraceBinHeader_ne (ctx : SpanContext) :
    toGrpcTraceBinHeader ctx ≠ "" := by
  intro hc
  have h1 := congrArg String.length hc
  simp only [toGrpcTraceBinHeader, String.length_mk, String.length_empty,
    List.length_map, List.length_append, List.length_cons, bytesBE_length] at h1
  omega

/-- Every injected header entry is one of the three format pairs. -/
theorem mem_injectedHeaders (cfg : OpenCensusConfig) (ctx : SpanContext)
    (p : String × String) (hp : p ∈ injectedHeaders cfg ctx) :
    p = ("x-cloud-trace-context", toCloudTraceContextHeader ctx)
    ∨ p = ("traceparent", toTraceParentHeader ctx)
    ∨ p = ("grpc-trace-bin", toGrpcTraceBinHeader ctx) := by
  obtain ⟨tc, b1, b2, b3⟩ := cfg
  cases b1 <;> cases b2 <;> cases b3 <;> simp_all [injectedHeaders] <;> tauto

/-- No injected header value is the empty string. -/
theorem injectedHeaders_values_ne (cfg : OpenCensusConfig) (ctx : SpanContext) :
    ((injectedHeaders cfg ctx).map Prod.snd).all (fun v => !(v == "")) = true := by
  rw [List.all_eq_true]
  intro v hv
  rcases List.mem_map.mp hv with ⟨p, hp, hpe⟩
  have hne : p.2 ≠ "" := by
    rcases mem_injectedHeaders cfg ctx p hp with h | h | h <;> rw [h]
    · exact toCloudTraceContextHeader_ne ctx
    · exact toTraceParentHeader_ne ctx
    · exact toGrpcTraceBinHeader_ne ctx
  subst hpe
  simp [hne]

/-- injectContext appends exactly the injected headers to the container. -/
theorem injectContext_eq_append (cfg : OpenCensusConfig) (sp : OcSpan) (h : HeaderMap) :
    (EnvoySpan.injectContext (EnvoySpan.mk sp cfg) h).2
      = h ++ injectedHeaders cfg sp.context := by
  obtain ⟨tc, b1, b2, b3⟩ := cfg
  cases b1 <;> cases b2 <;> cases b3 <;>
    simp [EnvoySpan.injectContext, injectedHeaders, addCopy]

/-- Claim C1: Driver.startSpan honors the explicit sampling directive
unconditionally: the started span records data exactly when the directive
says traced, the context sampled bit agrees, and the resulting span is
independent of the global probability sampler draw (hence of the configured
sampling probability). -/
theorem startSpan_honors_decision (d : Driver) (config : TracingConfig)
    (h : HeaderMap) (op : String) (t : SystemTime) (tdec : TracingDecision)
    (tid sid : Nat) (draw draw2 : Bool) :
    (Driver.startSpan d config h op t tdec tid sid draw).span_.recording = tdec.traced
    ∧ (Driver.startSpan d config h op t tdec tid sid draw).span_.context.sampled
        = tdec.traced
    ∧ Driver.startSpan d config h op t tdec tid sid draw
        = Driver.startSpan d config h op t tdec tid sid draw2 := by
  obtain ⟨b⟩ := tdec
  cases b <;> exact ⟨rfl, rfl, rfl⟩

/-- Claim C9: Driver.startSpan always creates a root span: the request
headers and the start time are ignored (any two values give the same span)
and the underlying span has a null parent, so no propagated context is ever
extracted from the incoming headers. -/
theorem startSpan_root (d : Driver) (config : TracingConfig) (h1 h2 : HeaderMap)
    (op : String) (t1 t2 : SystemTime) (tdec : TracingDecision) (tid sid : Nat)
    (draw : Bool) :
    Driver.startSpan d config h1 op t1 tdec tid sid draw
        = Driver.startSpan d config h2 op t2 tdec tid sid draw
    ∧ (Driver.startSpan d config h1 op t1 tdec tid sid draw).span_.parentSpanId
        = none :=
  ⟨rfl, rfl⟩

/-- Claim C7 counterexample: on a finished span, setOperation records no
annotation (mutation after finishSpan is a no-op), refuting the claim that
it adds the setOperation annotation for every span. -/
theorem setOperation_ended_no_annotation :
    (EnvoySpan.setOperation endedSpan "op2").span_.annotations
      ≠ endedSpan.span_.annotations
          ++ [("setOperation", [("operation", AttrValue.strV "op2")])] := by
  decide

/-- Claim C7 (amended): on a span not yet finished, setOperation only
appends a setOperation annotation carrying the requested name; on a
finished span it is a no-op; in every case the span name, context, parent
link, sampling decision, attributes, ended flag, export count and
configuration are unchanged. -/
theorem setOperation_frame (s : EnvoySpan) (operation : String) :
    (EnvoySpan.setOperation s operation).span_.annotations
        = (if s.span_.ended then s.span_.annotations
           else s.span_.annotations
             ++ [("setOperation", [("operation", AttrValue.strV operation)])])
    ∧ (EnvoySpan.setOperation s operation).span_.name = s.span_.name
    ∧ (EnvoySpan.setOperation s operation).span_.context = s.span_.context
    ∧ (EnvoySpan.setOperation s operation).span_.parentSpanId = s.span_.parentSpanId
    ∧ (EnvoySpan.setOperation s operation).span_.recording = s.span_.recording
    ∧ (EnvoySpan.setOperation s operation).span_.attributes = s.span_.attributes
    ∧ (EnvoySpan.setOperation s operation).span_.ended = s.span_.ended
    ∧ (EnvoySpan.setOperation s operation).span_.exportCount = s.span_.exportCount
    ∧ (EnvoySpan.setOperation s operation).oc_config_ = s.oc_config_ := by
  obtain ⟨⟨nm, ctx, par, rcd, ats, ans, en, ec⟩, cfg⟩ := s
  cases en <;> exact ⟨rfl, rfl, rfl, rfl, rfl, rfl, rfl, rfl, rfl⟩

/-- Claim C8 counterexample: on a finished span, setSampled records no
annotation (mutation after finishSpan is a no-op), refuting the claim that
it adds the setSampled annotation for every span. -/
theorem setSampled_ended_no_annotation :
    (EnvoySpan.setSampled endedSpan true).span_.annotations
      ≠ endedSpan.span_.annotations
          ++ [("setSampled", [("sampled", AttrValue.boolV true)])] := by
  decide

/-- Claim C8 (amended): on a span not yet finished, setSampled only appends
a setSampled annotation recording the override request; on a finished span
it is a no-op; in every case the sampling decision (recording flag and
context sampled bit) and all previously recorded data are unchanged. -/
theorem setSampled_frame (s : EnvoySpan) (sampled : Bool) :
    (EnvoySpan.setSampled s sampled).span_.annotations
        = (if s.span_.ended then s.span_.annotations
           else s.span_.annotations
             ++ [("setSampled", [("sampled", AttrValue.boolV sampled)])])
    ∧ (EnvoySpan.setSampled s sampled).span_.recording = s.span_.recording
    ∧ (EnvoySpan.setSampled s sampled).span_.context = s.span_.context
    ∧ (EnvoySpan.setSampled s sampled).span_.name = s.span_.name
    ∧ (EnvoySpan.setSampled s sampled).span_.parentSpanId = s.span_.parentSpanId
    ∧ (EnvoySpan.setSampled s sampled).span_.attributes = s.span_.attributes
    ∧ (EnvoySpan.setSampled s sampled).span_.ended = s.span_.ended
    ∧ (EnvoySpan.setSampled s sampled).span_.exportCount = s.span_.exportCount
    ∧ (EnvoySpan.setSampled s sampled).oc_config_ = s.oc_config_ := by
  obtain ⟨⟨nm, ctx, par, rcd, ats, ans, en, ec⟩, cfg⟩ := s
  cases en <;> exact ⟨rfl, rfl, rfl, rfl, rfl, rfl, rfl, rfl, rfl⟩

/-- Claim C10: the probability installed by applyTraceConfig is the default
constant 1e-4 when the sampler is not set, rate limiting, or unknown; the
configured probability for a probability sampler; and 1 or 0 for a constant
sampler according to its decision. -/
theorem applyTraceConfig_probability (config : TraceConfigProto) :
    kDefaultSamplingProbability = 1 / 10000
    ∧ (applyTraceConfig config).1.probability =
        match config.sampler with
        | SamplerCase.kProbabilitySampler p => p
        | SamplerCase.kConstantSampler d => if d then (1 : ℚ) else 0
        | _ => 1 / 10000 := by
  refine ⟨rfl, ?_⟩
  obtain ⟨sc, a, b, c, dl⟩ := config
  cases sc <;> rfl

/-- Claim C5: a trace configuration whose sampler is the unsupported
rate-limiting sampler makes driver construction log the error and fall back
to the default probability sampler: construction returns normally and the
installed trace parameters carry the default sampling probability. -/
theorem rateLimiting_fallback (q : ℚ) (a b c dl : Int) (pc pt pg : Bool) :
    Driver.construct
        { trace_config := some
            { sampler := SamplerCase.kRateLimitingSampler q
              max_number_of_attributes := a
              max_number_of_annotations := b
              max_number_of_message_events := c
              max_number_of_links := dl }
          propagate_cloud_trace_context := pc
          propagate_trace_context := pt
          propagate_grpc_trace_bin := pg }
      = ({ oc_config_ :=
             { trace_config := some
                 { sampler := SamplerCase.kRateLimitingSampler q
                   max_number_of_attributes := a
                   max_number_of_annotations := b
                   max_number_of_message_events := c
                   max_number_of_links := dl }
               propagate_cloud_trace_context := pc
               propagate_trace_context := pt
               propagate_grpc_trace_bin := pg } },
         some ({ max_attributes := u32 a
                 max_annotations := u32 b
                 max_message_events := u32 c
                 max_links := u32 dl
                 probability := kDefaultSamplingProbability },
               ["RateLimitingSampler is not supported."])) :=
  rfl

/-- Claim C2: injectContext appends exactly the headers of the enabled
propagation formats: the output container is the input followed by the
injected headers, whose names are x-cloud-trace-context, traceparent and
grpc-trace-bin exactly when the corresponding configuration flag is
enabled, and no injected value is the empty string, so a disabled format
header is entirely absent from the appended output, never empty. -/
theorem injectContext_exact (cfg : OpenCensusConfig) (sp : OcSpan) (h : HeaderMap) :
    (EnvoySpan.injectContext (EnvoySpan.mk sp cfg) h).2
        = h ++ injectedHeaders cfg sp.context
    ∧ ((injectedHeaders cfg sp.context).map Prod.fst).contains "x-cloud-trace-context"
        = cfg.propagate_cloud_trace_context
    ∧ ((injectedHeaders cfg sp.context).map Prod.fst).contains "traceparent"
        = cfg.propagate_trace_context
    ∧ ((injectedHeaders cfg sp.context).map Prod.fst).contains "grpc-trace-bin"
        = cfg.propagate_grpc_trace_bin
    ∧ ((injectedHeaders cfg sp.context).map Prod.snd).all (fun v => !(v == ""))
        = true := by
  refine ⟨injectContext_eq_append cfg sp h, ?_, ?_, ?_,
    injectedHeaders_values_ne cfg sp.context⟩ <;>
  · obtain ⟨tc, b1, b2, b3⟩ := cfg
    cases b1 <;> cases b2 <;> cases b3 <;> simp [injectedHeaders]

/-- Claim C3 counterexample: with the cloud-trace-context format enabled, a
second injectContext call appends a duplicate header entry, so the container
after two calls differs from the container after one call. -/
theorem injectContext_not_idempotent :
    (EnvoySpan.injectContext sampleSpan
        (EnvoySpan.injectContext sampleSpan []).2).2
      ≠ (EnvoySpan.injectContext sampleSpan []).2 := by
  intro hcontr
  have hl := congrArg List.length hcontr
  simp [EnvoySpan.injectContext, sampleSpan, cfgCloudOnly, addCopy] at hl

/-- Claim C3 (amended): injectContext never mutates the span and is a pure
function of span state and configuration, but it is not idempotent on the
header container: each call appends one fresh copy of the headers of the
enabled formats, so two calls append the same values twice, and the set of
distinct header entries after two calls equals the set after one call. -/
theorem injectContext_pure (cfg : OpenCensusConfig) (sp : OcSpan) (h : HeaderMap) :
    (EnvoySpan.injectContext (EnvoySpan.mk sp cfg) h).1 = EnvoySpan.mk sp cfg
    ∧ (EnvoySpan.injectContext (EnvoySpan.mk sp cfg)
          (EnvoySpan.injectContext (EnvoySpan.mk sp cfg) h).2).2
        = h ++ injectedHeaders cfg sp.context ++ injectedHeaders cfg sp.context
    ∧ List.toFinset
        (EnvoySpan.injectContext (EnvoySpan.mk sp cfg)
          (EnvoySpan.injectContext (EnvoySpan.mk sp cfg) h).2).2
        = List.toFinset (EnvoySpan.injectContext (EnvoySpan.mk sp cfg) h).2 := by
  refine ⟨rfl, ?_, ?_⟩
  · rw [injectContext_eq_append, injectContext_eq_append]
  · rw [injectContext_eq_append, injectContext_eq_append]
    simp [List.toFinset_append, Finset.union_assoc]

/-- Claim C4: finishSpan is idempotent: on a not-yet-ended span the first
call ends it and dispatches exactly one export, and a second call changes
nothing, so the observable effect of two calls equals that of one. -/
theorem finishSpan_idempotent (s : EnvoySpan) (h : s.span_.ended = false) :
    EnvoySpan.finishSpan (EnvoySpan.finishSpan s) = EnvoySpan.finishSpan s
    ∧ (EnvoySpan.finishSpan s).span_.ended = true
    ∧ (EnvoySpan.finishSpan s).span_.exportCount = s.span_.exportCount + 1
    ∧ (EnvoySpan.finishSpan (EnvoySpan.finishSpan s)).span_.exportCount
        = s.span_.exportCount + 1 := by
  simp [EnvoySpan.finishSpan, ocEnd, h]

/-- Witness for claim C4 at a concrete unfinished span. -/
theorem finishSpan_idempotent_witness :
    sampleSpan.span_.ended = false
    ∧ (EnvoySpan.finishSpan (EnvoySpan.finishSpan sampleSpan)
          = EnvoySpan.finishSpan sampleSpan
       ∧ (EnvoySpan.finishSpan sampleSpan).span_.ended = true
       ∧ (EnvoySpan.finishSpan sampleSpan).span_.exportCount
           = sampleSpan.span_.exportCount + 1
       ∧ (EnvoySpan.finishSpan (EnvoySpan.finishSpan sampleSpan)).span_.exportCount
           = sampleSpan.span_.exportCount + 1) :=
  ⟨rfl, finishSpan_idempotent sampleSpan rfl⟩

/-- Claim C6 counterexample: on a finished parent span, spawnChild records
no annotation (mutation after finishSpan is a no-op), refuting the claim
that the spawnChild annotation is recorded on s for every span s. -/
theorem spawnChild_ended_no_annotation :
    (EnvoySpan.spawnChild endedSpan "child" 0 3 false).1.span_.annotations
      ≠ endedSpan.span_.annotations ++ [("spawnChild", [])] := by
  decide

/-- Claim C6 (amended): spawnChild returns a child whose parent reference is
exactly the spawning span: the back-reference is the parent span id, the
trace id is inherited, and the fresh child id lies outside the set of
existing span ids, so the child is never the parent itself nor any existing
descendant; the spawnChild annotation is recorded on the parent only when
the parent is not yet finished (a no-op on a finished span), and the parent
stores no forward reference to the child: every parent field other than the
annotations is unchanged. -/
theorem spawnChild_parent_link (s : EnvoySpan) (name : String) (t : SystemTime)
    (used : Finset Nat) (sid : Nat) (draw : Bool)
    (hmem : s.span_.context.spanId ∈ used) (hfresh : sid ∉ used) :
    (EnvoySpan.spawnChild s name t sid draw).2.span_.parentSpanId
        = some s.span_.context.spanId
    ∧ (EnvoySpan.spawnChild s name t sid draw).2.span_.context.traceId
        = s.span_.context.traceId
    ∧ (EnvoySpan.spawnChild s name t sid draw).2.span_.context.spanId ∉ used
    ∧ (EnvoySpan.spawnChild s name t sid draw).2.span_.context.spanId
        ≠ s.span_.context.spanId
    ∧ (EnvoySpan.spawnChild s name t sid draw).1.span_.annotations
        = (if s.span_.ended then s.span_.annotations
           else s.span_.annotations ++ [("spawnChild", [])])
    ∧ (EnvoySpan.spawnChild s name t sid draw).1.span_.name = s.span_.name
    ∧ (EnvoySpan.spawnChild s name t sid draw).1.span_.context = s.span_.context
    ∧ (EnvoySpan.spawnChild s name t sid draw).1.span_.parentSpanId
        = s.span_.parentSpanId
    ∧ (EnvoySpan.spawnChild s name t sid draw).1.span_.recording
        = s.span_.recording
    ∧ (EnvoySpan.spawnChild s name t sid draw).1.span_.attributes
        = s.span_.attributes
    ∧ (EnvoySpan.spawnChild s name t sid draw).1.span_.ended = s.span_.ended
    ∧ (EnvoySpan.spawnChild s name t sid draw).1.span_.exportCount
        = s.span_.exportCount
    ∧ (EnvoySpan.spawnChild s name t sid draw).1.oc_config_ = s.oc_config_ := by
  obtain ⟨⟨nm, ctx, par, rcd, ats, ans, en, ec⟩, cfg⟩ := s
  cases en
  case false =>
    refine ⟨rfl, rfl, ?_, ?_, rfl, rfl, rfl, rfl, rfl, rfl, rfl, rfl, rfl⟩
    · show sid ∉ used
      exact hfresh
    · show sid ≠ ctx.spanId
      intro he
      exact hfresh (by rw [he]; exact hmem)
  case true =>
    refine ⟨rfl, rfl, ?_, ?_, rfl, rfl, rfl, rfl, rfl, rfl, rfl, rfl, rfl⟩
    · show sid ∉ used
      exact hfresh
    · show sid ≠ ctx.spanId
      intro he
      exact hfresh (by rw [he]; exact hmem)

/-- Witness for claim C6 at a concrete span with a concrete fresh id. -/
theorem spawnChild_parent_link_witness :
    sampleSpan.span_.context.spanId ∈ ({2} : Finset Nat)
    ∧ (3 : Nat) ∉ ({2} : Finset Nat)
    ∧ ((EnvoySpan.spawnChild sampleSpan "child" 0 3 false).2.span_.parentSpanId
          = some sampleSpan.span_.context.spanId
       ∧ (EnvoySpan.spawnChild sampleSpan "child" 0 3 false).2.span_.context.traceId
           = sampleSpan.span_.context.traceId
       ∧ (EnvoySpan.spawnChild sampleSpan "child" 0 3 false).2.span_.context.spanId
           ∉ ({2} : Finset Nat)
       ∧ (EnvoySpan.spawnChild sampleSpan "child" 0 3 false).2.span_.context.spanId
           ≠ sampleSpan.span_.context.spanId
       ∧ (EnvoySpan.spawnChild sampleSpan "child" 0 3 false).1.span_.annotations
           = (if sampleSpan.span_.ended then sampleSpan.span_.annotations
              else sampleSpan.span_.annotations ++ [("spawnChild", [])])
       ∧ (EnvoySpan.spawnChild sampleSpan "child" 0 3 false).1.span_.name
           = sampleSpan.span_.name
       ∧ (EnvoySpan.spawnChild sampleSpan "child" 0 3 false).1.span_.context
           = sampleSpan.span_.context
       ∧ (EnvoySpan.spawnChild sampleSpan "child" 0 3 false).1.span_.parentSpanId
           = sampleSpan.span_.parentSpanId
       ∧ (EnvoySpan.spawnChild sampleSpan "child" 0 3 false).1.span_.recording
           = sampleSpan.span_.recording
       ∧ (EnvoySpan.spawnChild sampleSpan "child" 0 3 false).1.span_.attributes
           = sampleSpan.span_.attributes
       ∧ (EnvoySpan.spawnChild sampleSpan "child" 0 3 false).1.span_.ended
           = sampleSpan.span_.ended
       ∧ (EnvoySpan.spawnChild sampleSpan "child" 0 3 false).1.span_.exportCount
           = sampleSpan.span_.exportCount
       ∧ (EnvoySpan.spawnChild sampleSpan "child" 0 3 false).1.oc_config_
           = sampleSpan.oc_config_) :=
  ⟨by decide, by decide,
    spawnChild_parent_link sampleSpan "child" 0 {2} 3 false (by decide) (by decide)⟩

end OCTrace
